import Mathlib

/-!
# The video capture binding `_capture.c`

A shallow embedding of `src/python/pyxi/_pyxi/_video/_capture.c`, the CPython
binding of the video capture peripheral, and theorems about it.

* C `unsigned int` values are natural numbers reduced modulo `2 ^ 32` where
  the C code can wrap (argument conversion, `curFrame + 1`).
* The object `self`, the structure `*self->capture` and everything the binding
  talks to (the driver, the frame allocator, the frame object) are one explicit
  state, `World`, threaded through every function.
* The driver library (`video_capture.h`, `video_commons.h`) and the frame
  object (`_video.h`) are not part of the source file.  Their constants are
  parameters (`Consts`); their functions are modelled from the specification
  and marked so.  Every driver call, allocator call and frame lookup is
  recorded in a log, so that "no driver call is made" is a statement about
  the state.
-/

namespace Capture

/-! ## Constants and Python values -/

/-- Number of values of the C type `unsigned int`. -/
def UINT_MOD : Nat := 4294967296

/-- Constants the source takes from headers that are not part of the file:
`NUM_FRAMES`, `MAX_FRAME`, `STRIDE` (`video_commons.h`) and `XST_SUCCESS`. -/
structure Consts where
  NUM_FRAMES : Nat
  MAX_FRAME : Nat
  STRIDE : Nat
  XST_SUCCESS : Int

/-- The part of a `videoframeObject` the binding touches: the array
`frame_buffer`, one entry per frame, `none` for a `NULL` pointer. -/
structure videoframeObject where
  frame_buffer : List (Option Nat)
deriving DecidableEq, Repr

/-- Python objects as far as the binding tells them apart: integers (of any
size), dictionaries, frame objects, and any other object.  Of another object
the binding can only see what its `__index__` method returns: `index` is that
integer, and `none` when the object has no `__index__` (a string, a float,
`None`) or the method fails. -/
inductive PyObj where
  | int (z : Int)
  | dict
  | frame (f : videoframeObject)
  | other (index : Option Int)
deriving DecidableEq, Repr

/-- Exceptions the binding leaves set when it returns `NULL` or `-1`.
`ValueError` carries the three numbers of the message
`"index %d out of range [%d,%d]"` as the message shows them. -/
inductive PyErr where
  | TypeError
  | ValueError (index : Int) (lo hi : Int)
  | SyntaxError (msg : String)
  | MemoryError (msg : String)
  | LookupError (status : Int)
deriving DecidableEq, Repr

/-- The four `%d` arguments of the `sprintf` in `videocapture_str`, each under
the label the format string prints in front of it. -/
structure Summary where
  State : Nat
  CurrentIndex : Nat
  CurrentWidth : Nat
  CurrentHeight : Nat
deriving DecidableEq, Repr

/-- What a method of the binding returns. -/
inductive PyResult where
  | None
  | uint (v : Nat)
  | str (s : Summary)
  | view (buffer : Option Nat)
  | NULL (e : PyErr)
deriving DecidableEq, Repr

/-! ## State -/

/-- The fields `timing.HActiveVideo` and `timing.VActiveVideo`. -/
structure VideoTiming where
  HActiveVideo : Nat
  VActiveVideo : Nat
deriving DecidableEq, Repr

/-- The fields of `VideoCapture` the binding reads or writes. -/
structure VideoCapture where
  state : Nat
  curFrame : Nat
  timing : VideoTiming
deriving DecidableEq, Repr

/-- Calls into the driver library, with their scalar arguments. -/
inductive DriverCall where
  | VideoInitialize (vtcBaseAddress : Nat) (frame : Option PyObj) (stride : Nat)
  | VideoChangeFrame (frameIndex : Nat)
  | VtcDetect
  | VideoStart
  | VideoStop
deriving DecidableEq, Repr

/-- Calls into the frame allocator. -/
inductive MemEvent where
  | alloc (size : Nat) (result : Option Nat)
  | free (handle : Nat)
deriving DecidableEq, Repr

/-- The binding object and its surroundings.

* `capture`, `frame`: `*self->capture` and `self->frame` (`none` is `NULL`);
* `signal`: the video timing the detector sees at the moment;
* `resetState`, `runningState`, `haltedState`: the driver's status codes;
* `initStatus`: the status the next `VideoInitialize` reports;
* `allocPlan n`: what the `n`-th call of `frame_alloc` returns, `allocCalls`
  counting the calls made so far;
* `driverLog`, `memLog`, `lookupLog`: the driver calls, allocator calls and
  `get_frame` lookups made so far, oldest first. -/
structure World where
  capture : VideoCapture
  frame : Option PyObj
  signal : VideoTiming
  resetState : Nat
  runningState : Nat
  haltedState : Nat
  initStatus : Int
  allocPlan : Nat → Option Nat
  allocCalls : Nat
  driverLog : List DriverCall
  memLog : List MemEvent
  lookupLog : List Nat

/-! ## CPython argument conversion -/

/-- Format unit `"I"`: a Python integer is converted to `unsigned int`
without overflow checking, that is, reduced modulo `2 ^ 32`. -/
def toUInt (z : Int) : Nat := (z % (UINT_MOD : Int)).toNat

/-- The integer the format unit `"I"` sees in an object: the object itself when
it is an integer, otherwise what its `__index__` returns; `none` when there is
no such integer and the conversion raises `TypeError`. -/
def PyNumber_Index (o : PyObj) : Option Int :=
  match o with
  | PyObj.int z => some z
  | PyObj.other index => index
  | PyObj.dict => none
  | PyObj.frame _ => none

/-- The `%d` of `PyErr_Format` applied to an `unsigned int` argument: the 32
bits are shown as a signed `int`, so values from `2 ^ 31` on appear
negative. -/
def asSignedInt (n : Nat) : Int :=
  if n < 2147483648 then (n : Int) else (n : Int) - (UINT_MOD : Int)

/-- The call `PyArg_ParseTuple(args, "I", &newIndex)`: exactly one argument,
converted by the format unit `"I"`.  `none` stands for failure (a `TypeError`
is set). -/
def PyArg_ParseTuple_I (args : List PyObj) : Option Nat :=
  match args with
  | [o] => (PyNumber_Index o).map toUInt
  | _ => none

/-- The call `PyArg_ParseTuple(args, "OOI|O", ...)`: two objects, a third
argument converted by the format unit `"I"`, and an optional fourth object,
which is stored unchecked. -/
def PyArg_ParseTuple_OOI_O (args : List PyObj) :
    Option (PyObj × PyObj × Nat × Option PyObj) :=
  match args with
  | [a, b, c] => (PyNumber_Index c).map fun z => (a, b, toUInt z, none)
  | [a, b, c, f] => (PyNumber_Index c).map fun z => (a, b, toUInt z, some f)
  | _ => none

/-- The type test `PyDict_Check`. -/
def PyDict_Check (o : PyObj) : Bool :=
  match o with
  | PyObj.dict => true
  | _ => false

/-! ## The collaborators, modelled from the specification -/

/-- Modelled from the spec: `VideoChangeFrame` of the driver library is not in
the source.  The spec's `setActiveBuffer(index)` arms buffer `index`, and the
index a frame-index query returns afterwards is the driver-confirmed one: the
driver records `index` as the current frame. -/
def VideoChangeFrame (w : World) (frameIndex : Nat) : World :=
  { w with
    capture := { w.capture with curFrame := frameIndex }
    driverLog := w.driverLog ++ [DriverCall.VideoChangeFrame frameIndex] }

/-- Modelled from the spec: `VtcDetect` of the driver library is not in the
source.  The spec's `probeTiming()` reads the detector afresh and changes
neither the frame index nor the state. -/
def VtcDetect (w : World) : World :=
  { w with
    capture := { w.capture with timing := w.signal }
    driverLog := w.driverLog ++ [DriverCall.VtcDetect] }

/-- Modelled from the spec: `VideoStart` of the driver library is not in the
source.  The spec's `start()` moves the driver, and with it `state`, to
running. -/
def VideoStart (w : World) : World :=
  { w with
    capture := { w.capture with state := w.runningState }
    driverLog := w.driverLog ++ [DriverCall.VideoStart] }

/-- Modelled from the spec: `VideoStop` of the driver library is not in the
source.  The spec's `stop()` moves the driver, and with it `state`, to
halted. -/
def VideoStop (w : World) : World :=
  { w with
    capture := { w.capture with state := w.haltedState }
    driverLog := w.driverLog ++ [DriverCall.VideoStop] }

/-- Modelled from the spec: `VideoInitialize` of the driver library is not in
the source.  The spec's `configure(...)` returns a status code, and
initialisation sets the frame index to 0 and `state` to the driver's reset
state. -/
def VideoInitialize (w : World) (vtcBaseAddress : Nat) (frame : Option PyObj)
    (stride : Nat) : World × Int :=
  ({ w with
     capture := { w.capture with curFrame := 0, state := w.resetState }
     driverLog :=
       w.driverLog ++ [DriverCall.VideoInitialize vtcBaseAddress frame stride] },
   w.initStatus)

/-- Modelled from the spec: `frame_alloc` is not in the source.  The spec's
allocator hands out a buffer or fails; the outcome of each call is taken from
`allocPlan`. -/
def frame_alloc (w : World) (size : Nat) : World × Option Nat :=
  let p := w.allocPlan w.allocCalls
  ({ w with
     allocCalls := w.allocCalls + 1
     memLog := w.memLog ++ [MemEvent.alloc size p] }, p)

/-- Modelled from the spec: the Frame Store is addressed by buffer index.  The
frame buffer at `index` of a frame object, `none` when the object holds no
buffer there (or is no frame object). -/
def bufferAt (frame : Option PyObj) (index : Nat) : Option Nat :=
  match frame with
  | some (PyObj.frame f) => f.frame_buffer.getD index none
  | _ => none

/-- Modelled from the spec: `get_frame` of the frame object is not in the
source.  The spec's lookup returns a view of the frame buffer at `index`. -/
def get_frame (w : World) (frame : Option PyObj) (index : Nat) :
    World × Option Nat :=
  ({ w with lookupLog := w.lookupLog ++ [index] }, bufferAt frame index)

/-! ## The binding -/

/-- The allocation loop of `videocapture_init`,
`for(int i = 0; i < NUM_FRAMES; i++)`, with `n` iterations left at index `i`.
The flag is `false` when the loop left through `return -1`. -/
def allocFrames (MAX_FRAME : Nat) :
    Nat → Nat → World → videoframeObject → World × videoframeObject × Bool
  | 0, _, w, f => (w, f, true)
  | n + 1, i, w, f =>
    let r := frame_alloc w MAX_FRAME
    let f1 : videoframeObject := { frame_buffer := f.frame_buffer.set i r.2 }
    match r.2 with
    | none => (r.1, f1, false)
    | some _ => allocFrames MAX_FRAME n (i + 1) r.1 f1

/-- The constructor `videocapture_init` (source lines 92-122): the returned integer (`0` or `-1`) and the exception
left set, if any.  `PyObject_New` is taken to succeed; the new frame object
starts with `NUM_FRAMES` unset entries. -/
def videocapture_init (k : Consts) (w : World) (args : List PyObj) :
    World × Int × Option PyErr :=
  let w0 := { w with frame := none }
  match PyArg_ParseTuple_OOI_O args with
  | none => (w0, -1, some PyErr.TypeError)
  | some (vdma_dict, gpio_dict, vtcBaseAddress, frameArg) =>
    let w1 := { w0 with frame := frameArg }
    if !(PyDict_Check vdma_dict && PyDict_Check gpio_dict) then (w1, -1, none)
    else
      let created : World × Bool :=
        match w1.frame with
        | none =>
          let r := allocFrames k.MAX_FRAME k.NUM_FRAMES 0 w1
            { frame_buffer := List.replicate k.NUM_FRAMES none }
          ({ r.1 with frame := some (PyObj.frame r.2.1) }, r.2.2)
        | some _ => (w1, true)
      if !created.2 then
        (created.1, -1, some (PyErr.MemoryError "unable to allocate memory"))
      else
        let r := VideoInitialize created.1 vtcBaseAddress created.1.frame k.STRIDE
        if r.2 ≠ k.XST_SUCCESS then (r.1, -1, some (PyErr.LookupError r.2))
        else (r.1, 0, none)

/-- The method `videocapture_str` (source lines 128-136): probe the timing,
then format state, index, width and height; the source passes
`timing.HActiveVideo` for both of the last two. -/
def videocapture_str (w : World) : World × PyResult :=
  let w1 := VtcDetect w
  (w1, PyResult.str
    { State := w1.capture.state
      CurrentIndex := w1.capture.curFrame
      CurrentWidth := w1.capture.timing.HActiveVideo
      CurrentHeight := w1.capture.timing.HActiveVideo })

/-- The method `videocapture_frame_index` (source lines 155-175): with
arguments, convert one argument to `unsigned int`, range-check it, store it
and call `VideoChangeFrame`, or raise the `ValueError` whose message shows
`newIndex` through `%d`; without arguments, return `curFrame`. -/
def videocapture_frame_index (k : Consts) (w : World) (args : List PyObj) :
    World × PyResult :=
  let nargs := args.length
  if nargs > 0 then
    match PyArg_ParseTuple_I args with
    | none => (w, PyResult.NULL PyErr.TypeError)
    | some newIndex =>
      if newIndex ≥ 0 ∧ newIndex < k.NUM_FRAMES then
        let w1 := { w with capture := { w.capture with curFrame := newIndex } }
        let w2 := VideoChangeFrame w1 newIndex
        (w2, PyResult.None)
      else
        (w, PyResult.NULL
          (PyErr.ValueError (asSignedInt newIndex) 0 ((k.NUM_FRAMES : Int) - 1)))
  else (w, PyResult.uint w.capture.curFrame)

/-- The method `videocapture_frame_index_next` (source lines 182-188):
`curFrame + 1` in `unsigned int` arithmetic, reset to 0 when it reaches
`NUM_FRAMES`, handed to `VideoChangeFrame`; the value returned is `curFrame`
as the driver left it. -/
def videocapture_frame_index_next (k : Consts) (w : World) : World × PyResult :=
  let newIndex := (w.capture.curFrame + 1) % UINT_MOD
  let newIndex := if newIndex ≥ k.NUM_FRAMES then 0 else newIndex
  let w1 := VideoChangeFrame w newIndex
  (w1, PyResult.uint w1.capture.curFrame)

/-- The method `videocapture_frame_width` (source lines 194-197). -/
def videocapture_frame_width (w : World) : World × PyResult :=
  let w1 := VtcDetect w
  (w1, PyResult.uint w1.capture.timing.HActiveVideo)

/-- The method `videocapture_frame_height` (source lines 203-206). -/
def videocapture_frame_height (w : World) : World × PyResult :=
  let w1 := VtcDetect w
  (w1, PyResult.uint w1.capture.timing.VActiveVideo)

/-- The method `videocapture_start` (source lines 211-214). -/
def videocapture_start (w : World) : World × PyResult :=
  (VideoStart w, PyResult.None)

/-- The method `videocapture_stop` (source lines 219-222). -/
def videocapture_stop (w : World) : World × PyResult :=
  (VideoStop w, PyResult.None)

/-- The method `videocapture_state` (source lines 227-229). -/
def videocapture_state (w : World) : World × PyResult :=
  (w, PyResult.uint w.capture.state)

/-- The method `videocapture_frame` (source lines 238-249): the index defaults
to `curFrame`; with no argument, or with one argument that converts to
`unsigned int`, the result of `get_frame` is returned as it is; otherwise the
`SyntaxError` "invalid argument" is raised. -/
def videocapture_frame (w : World) (args : List PyObj) : World × PyResult :=
  let index := w.capture.curFrame
  let nargs := args.length
  if nargs = 0 then
    let r := get_frame w w.frame index
    (r.1, PyResult.view r.2)
  else if nargs = 1 then
    match PyArg_ParseTuple_I args with
    | some index1 =>
      let r := get_frame w w.frame index1
      (r.1, PyResult.view r.2)
    | none => (w, PyResult.NULL (PyErr.SyntaxError "invalid argument"))
  else (w, PyResult.NULL (PyErr.SyntaxError "invalid argument"))

/-- The entries of `videocapture_methods`, and `tp_str`. -/
inductive Method where
  | frame_index
  | frame_index_next
  | frame_width
  | frame_height
  | start
  | stop
  | state
  | frame
  | str
deriving DecidableEq, Repr

/-- Method dispatch through `videocapture_methods` and `tp_str`: only
`frame_index` and `frame` look at their arguments. -/
def call (k : Consts) (w : World) (m : Method) (args : List PyObj) :
    World × PyResult :=
  match m with
  | Method.frame_index => videocapture_frame_index k w args
  | Method.frame_index_next => videocapture_frame_index_next k w
  | Method.frame_width => videocapture_frame_width w
  | Method.frame_height => videocapture_frame_height w
  | Method.start => videocapture_start w
  | Method.stop => videocapture_stop w
  | Method.state => videocapture_state w
  | Method.frame => videocapture_frame w args
  | Method.str => videocapture_str w

/-- The effect of `n` consecutive calls of `videocapture_frame_index_next`: the final state
and the values returned, in call order. -/
def nextFrames (k : Consts) : Nat → World → World × List PyResult
  | 0, w => (w, [])
  | n + 1, w =>
    let r := videocapture_frame_index_next k w
    let rest := nextFrames k n r.1
    (rest.1, r.2 :: rest.2)

/-- Number of `frame_alloc` calls in a log that returned a buffer. -/
def allocated (log : List MemEvent) : Nat :=
  log.countP fun e =>
    match e with
    | MemEvent.alloc _ (some _) => true
    | _ => false

/-- Number of `free` calls in a log. -/
def freed (log : List MemEvent) : Nat :=
  log.countP fun e =>
    match e with
    | MemEvent.free _ => true
    | _ => false

/-! ## Concrete states used in examples -/

/-- The constants of a three-buffer build with 1080p frames of 3 bytes per
pixel. -/
def k3 : Consts :=
  { NUM_FRAMES := 3, MAX_FRAME := 6220800, STRIDE := 5760, XST_SUCCESS := 0 }

/-- A running controller on frame 2 of three, the source delivering 1920x1080,
with nothing logged yet. -/
def w2 : World :=
  { capture := { state := 1, curFrame := 2, timing := { HActiveVideo := 0, VActiveVideo := 0 } }
    frame := some (PyObj.frame { frame_buffer := [some 4096, some 8192, some 12288] })
    signal := { HActiveVideo := 1920, VActiveVideo := 1080 }
    resetState := 0
    runningState := 1
    haltedState := 2
    initStatus := 0
    allocPlan := fun n => some (4096 * (n + 1))
    allocCalls := 0
    driverLog := []
    memLog := []
    lookupLog := [] }

/-- The state `w2` with the cursor on frame 0. -/
def w0 : World :=
  { w2 with capture := { w2.capture with curFrame := 0 } }

/-- A fresh object before `videocapture_init`, with an allocator that hands out
one buffer and then fails. -/
def wOneBuffer : World :=
  { w2 with
    frame := none
    allocPlan := fun n => if n < 1 then some 4096 else none }

/-- A fresh object before `videocapture_init`, with a working allocator and a
driver that reports status 1 on initialisation. -/
def wDriverFails : World :=
  { w2 with frame := none, initStatus := 1 }

/-- The arguments `(vdma_dict, gpio_dict, 0x43C10000)` of the constructor. -/
def initArgs : List PyObj :=
  [PyObj.dict, PyObj.dict, PyObj.int 1136721920]

/-! ## Argument conversion -/

theorem toUInt_lt (z : Int) : toUInt z < UINT_MOD := by
  unfold toUInt UINT_MOD
  have h := Int.emod_lt_of_pos z (show (0 : Int) < ((4294967296 : Nat) : Int) by norm_num)
  have h0 := Int.emod_nonneg z (show (((4294967296 : Nat) : Int)) ≠ 0 by norm_num)
  omega

theorem toUInt_natCast (n : Nat) (h : n < UINT_MOD) : toUInt (n : Int) = n := by
  unfold toUInt UINT_MOD at *
  omega

theorem toUInt_of_range (z : Int) (h0 : 0 ≤ z) (h : z < (UINT_MOD : Int)) :
    (toUInt z : Int) = z := by
  unfold toUInt UINT_MOD at *
  omega

/-- On the range of a signed `int`, converting to `unsigned int` and showing
the result through `%d` gives the integer back. -/
theorem asSignedInt_toUInt (z : Int) (h0 : -2147483648 ≤ z) (h : z < 2147483648) :
    asSignedInt (toUInt z) = z := by
  unfold asSignedInt toUInt UINT_MOD
  split <;> omega

theorem asSignedInt_of_lt (n : Nat) (h : n < 2147483648) : asSignedInt n = n := by
  simp [asSignedInt, h]

theorem parse_I_int (z : Int) : PyArg_ParseTuple_I [PyObj.int z] = some (toUInt z) :=
  rfl

theorem parse_OOI_O_int (a b : PyObj) (z : Int) :
    PyArg_ParseTuple_OOI_O [a, b, PyObj.int z] = some (a, b, toUInt z, none) :=
  rfl

/-! ## Frame selection -/

/-- C1, as the code has it: for every caller-supplied integer `index` whose
conversion to `unsigned int` (its value modulo `2 ^ 32`) is at least
`NUM_FRAMES`, `frame_index(index)` fails with the out-of-range `ValueError`
and returns the state as it was: no driver call, `curFrame` unchanged.  The
error reports (converted index shown as a signed `int`, 0, `NUM_FRAMES - 1`);
for `-2 ^ 31 ≤ index < 2 ^ 31` the index it reports is `index` itself. -/
theorem frame_index_out_of_range (k : Consts) (w : World) (index : Int)
    (h : k.NUM_FRAMES ≤ toUInt index) :
    videocapture_frame_index k w [PyObj.int index] =
        (w, PyResult.NULL
          (PyErr.ValueError (asSignedInt (toUInt index)) 0 ((k.NUM_FRAMES : Int) - 1))) ∧
      (-2147483648 ≤ index → index < 2147483648 →
        asSignedInt (toUInt index) = index) := by
  refine ⟨?_, asSignedInt_toUInt index⟩
  have hn : ¬ toUInt index < k.NUM_FRAMES := Nat.not_lt.mpr h
  simp [videocapture_frame_index, parse_I_int, hn]

/-- Witness of C1 (amended): `frame_index(3)` and `frame_index(-1)` on three
frames; the errors report 3 and -1. -/
theorem frame_index_out_of_range_witness :
    k3.NUM_FRAMES ≤ toUInt 3 ∧
      videocapture_frame_index k3 w2 [PyObj.int 3] =
        (w2, PyResult.NULL (PyErr.ValueError (asSignedInt (toUInt 3)) 0 2)) ∧
      asSignedInt (toUInt 3) = 3 ∧
      k3.NUM_FRAMES ≤ toUInt (-1) ∧
      videocapture_frame_index k3 w2 [PyObj.int (-1)] =
        (w2, PyResult.NULL (PyErr.ValueError (asSignedInt (toUInt (-1))) 0 2)) ∧
      asSignedInt (toUInt (-1)) = -1 :=
  ⟨by decide, (frame_index_out_of_range k3 w2 3 (by decide)).1,
    (frame_index_out_of_range k3 w2 3 (by decide)).2 (by decide) (by decide),
    by decide, (frame_index_out_of_range k3 w2 (-1) (by decide)).1,
    (frame_index_out_of_range k3 w2 (-1) (by decide)).2 (by decide) (by decide)⟩

/-- Counterexample to C1 as stated, on three frames.  The index `2 ^ 32` lies
outside `[0, 3)`, yet `frame_index(2 ^ 32)` returns `None`, calls
`VideoChangeFrame` with 0 and moves `curFrame` from 2 to 0.  The index
`2 ^ 31` lies outside `[0, 3)` and is rejected, but the error reports
`-2147483648`, not the index. -/
theorem frame_index_wraps :
    ¬ ((0 : Int) ≤ 4294967296 ∧ (4294967296 : Int) < (k3.NUM_FRAMES : Int)) ∧
      (videocapture_frame_index k3 w2 [PyObj.int 4294967296]).2 = PyResult.None ∧
      (videocapture_frame_index k3 w2 [PyObj.int 4294967296]).1.driverLog =
        [DriverCall.VideoChangeFrame 0] ∧
      w2.driverLog = [] ∧
      w2.capture.curFrame = 2 ∧
      (videocapture_frame_index k3 w2 [PyObj.int 4294967296]).1.capture.curFrame = 0 ∧
      ¬ ((0 : Int) ≤ 2147483648 ∧ (2147483648 : Int) < (k3.NUM_FRAMES : Int)) ∧
      (videocapture_frame_index k3 w2 [PyObj.int 2147483648]).2 =
        PyResult.NULL (PyErr.ValueError (-2147483648) 0 2) := by
  decide

/-- C2: for every index with `0 ≤ index < NUM_FRAMES` and every state,
`frame_index(index)` returns `None`, hands `index` to `VideoChangeFrame` (its
only driver call), and a following `frame_index()` returns exactly `index`
without changing anything. -/
theorem frame_index_select (k : Consts) (w : World) (index : Nat)
    (hk : k.NUM_FRAMES ≤ UINT_MOD) (h : index < k.NUM_FRAMES) :
    (videocapture_frame_index k w [PyObj.int index]).2 = PyResult.None ∧
      (videocapture_frame_index k w [PyObj.int index]).1.driverLog =
        w.driverLog ++ [DriverCall.VideoChangeFrame index] ∧
      videocapture_frame_index k (videocapture_frame_index k w [PyObj.int index]).1 [] =
        ((videocapture_frame_index k w [PyObj.int index]).1, PyResult.uint index) := by
  have hu : toUInt (index : Int) = index := toUInt_natCast index (by omega)
  simp [videocapture_frame_index, parse_I_int, VideoChangeFrame, hu, h]

/-- Witness of C2: `frame_index(1)` on three frames. -/
theorem frame_index_select_witness :
    k3.NUM_FRAMES ≤ UINT_MOD ∧ 1 < k3.NUM_FRAMES ∧
      (videocapture_frame_index k3 w2 [PyObj.int (1 : Nat)]).2 = PyResult.None ∧
      (videocapture_frame_index k3 w2 [PyObj.int (1 : Nat)]).1.driverLog =
        w2.driverLog ++ [DriverCall.VideoChangeFrame 1] ∧
      videocapture_frame_index k3 (videocapture_frame_index k3 w2 [PyObj.int (1 : Nat)]).1 [] =
        ((videocapture_frame_index k3 w2 [PyObj.int (1 : Nat)]).1, PyResult.uint 1) :=
  ⟨by decide, by decide, frame_index_select k3 w2 1 (by decide) (by decide)⟩

/-- Arithmetic of `videocapture_frame_index_next`: from a valid index the
wrapped successor is the successor modulo `NUM_FRAMES`. -/
theorem next_index_eq (n c : Nat) (hk : n ≤ UINT_MOD) (hc : c < n) :
    (if (c + 1) % UINT_MOD ≥ n then 0 else (c + 1) % UINT_MOD) = (c + 1) % n := by
  unfold UINT_MOD at *
  by_cases hw : c + 1 = n
  · subst hw
    rw [Nat.mod_self]
    by_cases h2 : c + 1 = 4294967296
    · simp [h2]
    · have h3 : (c + 1) % 4294967296 = c + 1 := Nat.mod_eq_of_lt (by omega)
      simp [h3]
  · have h3 : (c + 1) % 4294967296 = c + 1 := Nat.mod_eq_of_lt (by omega)
    have h4 : (c + 1) % n = c + 1 := Nat.mod_eq_of_lt (by omega)
    rw [h3, h4]
    have h5 : ¬ c + 1 ≥ n := by omega
    simp [h5]

/-- From a valid index, `frame_index_next` is one `VideoChangeFrame` call with
the successor modulo `NUM_FRAMES`, which is also the value returned. -/
theorem frame_index_next_eq (k : Consts) (w : World)
    (hk : k.NUM_FRAMES ≤ UINT_MOD) (hc : w.capture.curFrame < k.NUM_FRAMES) :
    videocapture_frame_index_next k w =
      (VideoChangeFrame w ((w.capture.curFrame + 1) % k.NUM_FRAMES),
        PyResult.uint ((w.capture.curFrame + 1) % k.NUM_FRAMES)) := by
  have e := next_index_eq k.NUM_FRAMES w.capture.curFrame hk hc
  simp [videocapture_frame_index_next, VideoChangeFrame, e]

/-- C3: from every state whose `curFrame` is `c < NUM_FRAMES`,
`frame_index_next()` returns a value (never `NULL`), that value is
`(c + 1) mod NUM_FRAMES`, `curFrame` equals it afterwards, and it is the index
handed to `VideoChangeFrame`, the only driver call made. -/
theorem frame_index_next_spec (k : Consts) (w : World)
    (hk : k.NUM_FRAMES ≤ UINT_MOD) (hc : w.capture.curFrame < k.NUM_FRAMES) :
    (videocapture_frame_index_next k w).2 =
        PyResult.uint ((w.capture.curFrame + 1) % k.NUM_FRAMES) ∧
      (videocapture_frame_index_next k w).1.capture.curFrame =
        (w.capture.curFrame + 1) % k.NUM_FRAMES ∧
      (videocapture_frame_index_next k w).1.driverLog =
        w.driverLog ++
          [DriverCall.VideoChangeFrame ((w.capture.curFrame + 1) % k.NUM_FRAMES)] := by
  rw [frame_index_next_eq k w hk hc]
  simp [VideoChangeFrame]

/-- Witness of C3: from frame 2 of three the next frame is 0. -/
theorem frame_index_next_spec_witness :
    k3.NUM_FRAMES ≤ UINT_MOD ∧ w2.capture.curFrame < k3.NUM_FRAMES ∧
      (videocapture_frame_index_next k3 w2).2 = PyResult.uint 0 ∧
      (videocapture_frame_index_next k3 w2).1.capture.curFrame = 0 :=
  ⟨by decide, by decide, (frame_index_next_spec k3 w2 (by decide) (by decide)).1,
    (frame_index_next_spec k3 w2 (by decide) (by decide)).2.1⟩

/-! ## Cycling through the frames -/

/-- While the cursor stays below the last frame, `n` calls of
`frame_index_next` return the `n` successors of the start index in order. -/
theorem nextFrames_run (k : Consts) (hk : k.NUM_FRAMES ≤ UINT_MOD) :
    ∀ (n : Nat) (w : World), w.capture.curFrame + n < k.NUM_FRAMES →
      (nextFrames k n w).2 =
          (List.range' (w.capture.curFrame + 1) n).map PyResult.uint ∧
        (nextFrames k n w).1.capture.curFrame = w.capture.curFrame + n := by
  intro n
  induction n with
  | zero => intro w _; simp [nextFrames]
  | succ n ih =>
    intro w h
    have hc : w.capture.curFrame < k.NUM_FRAMES := by omega
    have hm : (w.capture.curFrame + 1) % k.NUM_FRAMES = w.capture.curFrame + 1 :=
      Nat.mod_eq_of_lt (by omega)
    have hstep := frame_index_next_eq k w hk hc
    rw [hm] at hstep
    have h1 : (videocapture_frame_index_next k w).2 =
        PyResult.uint (w.capture.curFrame + 1) := by rw [hstep]
    have h2 : (videocapture_frame_index_next k w).1.capture.curFrame =
        w.capture.curFrame + 1 := by rw [hstep]; rfl
    have h3 : (videocapture_frame_index_next k w).1.capture.curFrame + n < k.NUM_FRAMES := by
      omega
    obtain ⟨i1, i2⟩ := ih (videocapture_frame_index_next k w).1 h3
    constructor
    · simp only [nextFrames, i1, h1, h2, List.range'_succ, List.map_cons]
    · simp only [nextFrames, i2, h2]
      omega

/-- One more call after `n` calls: the last call acts on the state the first
`n` left, and its value comes last. -/
theorem nextFrames_succ_last (k : Consts) :
    ∀ (n : Nat) (w : World),
      nextFrames k (n + 1) w =
        ((videocapture_frame_index_next k (nextFrames k n w).1).1,
         (nextFrames k n w).2 ++ [(videocapture_frame_index_next k (nextFrames k n w).1).2]) := by
  intro n
  induction n with
  | zero => intro w; simp [nextFrames]
  | succ n ih =>
    intro w
    have e := ih (videocapture_frame_index_next k w).1
    rw [nextFrames, e]
    simp [nextFrames]

/-- C4: starting from `curFrame = 0`, `NUM_FRAMES` consecutive calls of
`frame_index_next()` return 1, 2, ..., `NUM_FRAMES - 1`, 0 in this order; the
returned indices are the indices `0 .. NUM_FRAMES - 1`, each exactly once
(a permutation of that range); and the cursor ends at 0. -/
theorem nextFrames_cycle (k : Consts) (w : World) (hk : k.NUM_FRAMES ≤ UINT_MOD)
    (hN : 0 < k.NUM_FRAMES) (h0 : w.capture.curFrame = 0) :
    (nextFrames k k.NUM_FRAMES w).2 =
        (List.range' 1 (k.NUM_FRAMES - 1) ++ [0]).map PyResult.uint ∧
      (List.range' 1 (k.NUM_FRAMES - 1) ++ [0]).Perm (List.range k.NUM_FRAMES) ∧
      (nextFrames k k.NUM_FRAMES w).1.capture.curFrame = 0 := by
  obtain ⟨m, hm⟩ : ∃ m, k.NUM_FRAMES = m + 1 := ⟨k.NUM_FRAMES - 1, by omega⟩
  have hrun := nextFrames_run k hk m w (by omega)
  rw [h0] at hrun
  obtain ⟨r1, r2⟩ := hrun
  have hc : (nextFrames k m w).1.capture.curFrame < k.NUM_FRAMES := by omega
  have hz : ((nextFrames k m w).1.capture.curFrame + 1) % k.NUM_FRAMES = 0 := by
    rw [r2, hm]
    simp
  have hstep := frame_index_next_eq k (nextFrames k m w).1 hk hc
  rw [hz] at hstep
  have l1 : (videocapture_frame_index_next k (nextFrames k m w).1).2 = PyResult.uint 0 := by
    rw [hstep]
  have l2 : (videocapture_frame_index_next k (nextFrames k m w).1).1.capture.curFrame = 0 := by
    rw [hstep]; rfl
  have hs : k.NUM_FRAMES - 1 = m := by omega
  rw [hs]
  refine ⟨?_, ?_, ?_⟩
  · rw [hm, nextFrames_succ_last, l1, r1]
    simp
  · rw [hm, List.range_eq_range', List.range'_succ]
    exact List.perm_append_comm
  · rw [hm, nextFrames_succ_last]
    exact l2

/-- Witness of C4: three frames give 1, 2, 0. -/
theorem nextFrames_cycle_witness :
    k3.NUM_FRAMES ≤ UINT_MOD ∧ 0 < k3.NUM_FRAMES ∧ w0.capture.curFrame = 0 ∧
      (nextFrames k3 k3.NUM_FRAMES w0).2 =
        (List.range' 1 (k3.NUM_FRAMES - 1) ++ [0]).map PyResult.uint ∧
      (nextFrames k3 k3.NUM_FRAMES w0).1.capture.curFrame = 0 :=
  ⟨by decide, by decide, rfl,
    (nextFrames_cycle k3 w0 (by decide) (by decide) rfl).1,
    (nextFrames_cycle k3 w0 (by decide) (by decide) rfl).2.2⟩

/-! ## Initialisation and the allocator -/

theorem allocated_append_some (l : List MemEvent) (size h : Nat) :
    allocated (l ++ [MemEvent.alloc size (some h)]) = allocated l + 1 := by
  simp [allocated, List.countP_append]

theorem allocated_append_none (l : List MemEvent) (size : Nat) :
    allocated (l ++ [MemEvent.alloc size none]) = allocated l := by
  simp [allocated, List.countP_append]

theorem freed_append_alloc (l : List MemEvent) (size : Nat) (p : Option Nat) :
    freed (l ++ [MemEvent.alloc size p]) = freed l := by
  simp [freed, List.countP_append]

/-- The allocation loop touches the allocator only: it calls no driver
function, leaves the driver's pending status alone, and frees nothing. -/
theorem allocFrames_frame (M : Nat) :
    ∀ (n i : Nat) (w : World) (f : videoframeObject),
      (allocFrames M n i w f).1.initStatus = w.initStatus ∧
        (allocFrames M n i w f).1.driverLog = w.driverLog ∧
        freed (allocFrames M n i w f).1.memLog = freed w.memLog := by
  intro n
  induction n with
  | zero => intro i w f; simp [allocFrames]
  | succ n ih =>
    intro i w f
    rw [allocFrames]
    cases hp : (frame_alloc w M).2 with
    | none => simp [frame_alloc, freed_append_alloc]
    | some b =>
      obtain ⟨a1, a2, a3⟩ := ih (i + 1) (frame_alloc w M).1
        { frame_buffer := f.frame_buffer.set i (some b) }
      simp only [a1, a2, a3]
      simp [frame_alloc, freed_append_alloc]

/-- When the first `m` allocations succeed and the next one fails, the loop
leaves through `return -1` with `m` buffers allocated. -/
theorem allocFrames_fail (M : Nat) :
    ∀ (n i : Nat) (w : World) (f : videoframeObject) (m : Nat), m < n →
      (∀ j, j < m → (w.allocPlan (w.allocCalls + j)).isSome) →
      w.allocPlan (w.allocCalls + m) = none →
      (allocFrames M n i w f).2.2 = false ∧
        allocated (allocFrames M n i w f).1.memLog = allocated w.memLog + m := by
  intro n
  induction n with
  | zero => intro i w f m hm; omega
  | succ n ih =>
    intro i w f m hm hs hf
    rw [allocFrames]
    cases m with
    | zero =>
      have hf2 : w.allocPlan w.allocCalls = none := by simpa using hf
      have hp : (frame_alloc w M).2 = none := by simp [frame_alloc, hf2]
      simp [hp]
      simp [frame_alloc, hf2, allocated_append_none]
    | succ m =>
      have h0 := hs 0 (by omega)
      obtain ⟨b, hb⟩ := Option.isSome_iff_exists.mp h0
      have hb2 : w.allocPlan w.allocCalls = some b := by simpa using hb
      have hp : (frame_alloc w M).2 = some b := by simp [frame_alloc, hb2]
      have step := ih (i + 1) (frame_alloc w M).1
        { frame_buffer := f.frame_buffer.set i (some b) } m (by omega)
        (by
          intro j hj
          have := hs (j + 1) (by omega)
          simpa [frame_alloc, Nat.add_assoc, Nat.add_comm 1 j] using this)
        (by simpa [frame_alloc, Nat.add_assoc, Nat.add_comm 1 m] using hf)
      simp only [hp]
      refine ⟨step.1, ?_⟩
      rw [step.2]
      simp [frame_alloc, hb2, allocated_append_some]
      omega

/-- When all `n` allocations succeed, the loop runs to its end with `n`
buffers allocated. -/
theorem allocFrames_ok (M : Nat) :
    ∀ (n i : Nat) (w : World) (f : videoframeObject),
      (∀ j, j < n → (w.allocPlan (w.allocCalls + j)).isSome) →
      (allocFrames M n i w f).2.2 = true ∧
        allocated (allocFrames M n i w f).1.memLog = allocated w.memLog + n := by
  intro n
  induction n with
  | zero => intro i w f _; simp [allocFrames]
  | succ n ih =>
    intro i w f hs
    rw [allocFrames]
    have h0 := hs 0 (by omega)
    obtain ⟨b, hb⟩ := Option.isSome_iff_exists.mp h0
    have hb2 : w.allocPlan w.allocCalls = some b := by simpa using hb
    have hp : (frame_alloc w M).2 = some b := by simp [frame_alloc, hb2]
    have step := ih (i + 1) (frame_alloc w M).1
      { frame_buffer := f.frame_buffer.set i (some b) }
      (by
        intro j hj
        have := hs (j + 1) (by omega)
        simpa [frame_alloc, Nat.add_assoc, Nat.add_comm 1 j] using this)
    simp only [hp]
    refine ⟨step.1, ?_⟩
    rw [step.2]
    simp [frame_alloc, hb2, allocated_append_some]
    omega

/-- On every path, whatever the arguments, `videocapture_init` makes no `free`
call. -/
theorem init_frees_nothing (k : Consts) (w : World) (args : List PyObj) :
    freed (videocapture_init k w args).1.memLog = freed w.memLog := by
  unfold videocapture_init
  cases hparse : PyArg_ParseTuple_OOI_O args with
  | none => simp
  | some t =>
    obtain ⟨a, b, v, fr⟩ := t
    cases fr with
    | none =>
      have hfr := (allocFrames_frame k.MAX_FRAME k.NUM_FRAMES 0 { w with frame := none }
        { frame_buffer := List.replicate k.NUM_FRAMES none }).2.2
      simp only []
      split
      · rfl
      · split
        · exact hfr
        · split <;> exact hfr
    | some o =>
      simp only []
      split
      · rfl
      · split
        · rfl
        · split <;> rfl

/-- A run of `videocapture_init` that returns 0 leaves `curFrame` at 0. -/
theorem init_success_curFrame (k : Consts) (w : World) (args : List PyObj)
    (h : (videocapture_init k w args).2.1 = 0) :
    (videocapture_init k w args).1.capture.curFrame = 0 := by
  unfold videocapture_init at h ⊢
  cases hparse : PyArg_ParseTuple_OOI_O args with
  | none => simp [hparse] at h
  | some t =>
    obtain ⟨a, b, v, fr⟩ := t
    simp only [hparse] at h ⊢
    split at h
    · simp at h
    · rename_i hd
      simp only [hd]
      split at h
      · simp at h
      · rename_i hc
        simp only [hc]
        split at h
        · simp at h
        · rename_i hst
          simp only [hst]
          simp [VideoInitialize]

/-- C6, as the code has it: `videocapture_init` never frees a buffer.  In a run
with no frame object supplied, (1) if the first `i < NUM_FRAMES` allocations
succeed and allocation `i` fails, the run fails with the `MemoryError`, has
allocated `i` buffers and freed none; (2) if all `NUM_FRAMES` allocations
succeed and `VideoInitialize` reports a status other than `XST_SUCCESS`, the
run fails with the `LookupError` carrying that status, has allocated
`NUM_FRAMES` buffers and freed none; (3) whatever the arguments, no `free`
call is made. -/
theorem init_failure_keeps_buffers (k : Consts) (w : World) (z : Int) :
    (∀ i, i < k.NUM_FRAMES →
        (∀ j, j < i → (w.allocPlan (w.allocCalls + j)).isSome) →
        w.allocPlan (w.allocCalls + i) = none →
        (videocapture_init k w [PyObj.dict, PyObj.dict, PyObj.int z]).2 =
            (-1, some (PyErr.MemoryError "unable to allocate memory")) ∧
          allocated (videocapture_init k w [PyObj.dict, PyObj.dict, PyObj.int z]).1.memLog =
            allocated w.memLog + i ∧
          freed (videocapture_init k w [PyObj.dict, PyObj.dict, PyObj.int z]).1.memLog =
            freed w.memLog) ∧
      ((∀ j, j < k.NUM_FRAMES → (w.allocPlan (w.allocCalls + j)).isSome) →
        w.initStatus ≠ k.XST_SUCCESS →
        (videocapture_init k w [PyObj.dict, PyObj.dict, PyObj.int z]).2 =
            (-1, some (PyErr.LookupError w.initStatus)) ∧
          allocated (videocapture_init k w [PyObj.dict, PyObj.dict, PyObj.int z]).1.memLog =
            allocated w.memLog + k.NUM_FRAMES ∧
          freed (videocapture_init k w [PyObj.dict, PyObj.dict, PyObj.int z]).1.memLog =
            freed w.memLog) ∧
      (∀ args, freed (videocapture_init k w args).1.memLog = freed w.memLog) := by
  refine ⟨?_, ?_, init_frees_nothing k w⟩
  · intro i hi hs hf
    have a := allocFrames_fail k.MAX_FRAME k.NUM_FRAMES 0 { w with frame := none }
      { frame_buffer := List.replicate k.NUM_FRAMES none } i hi hs hf
    refine ⟨?_, ?_, init_frees_nothing k w _⟩
    · simp [videocapture_init, parse_OOI_O_int, PyDict_Check, a.1]
    · simp [videocapture_init, parse_OOI_O_int, PyDict_Check, a.1]
      exact a.2
  · intro hs hst
    have a := allocFrames_ok k.MAX_FRAME k.NUM_FRAMES 0 { w with frame := none }
      { frame_buffer := List.replicate k.NUM_FRAMES none } hs
    have b := allocFrames_frame k.MAX_FRAME k.NUM_FRAMES 0 { w with frame := none }
      { frame_buffer := List.replicate k.NUM_FRAMES none }
    refine ⟨?_, ?_, init_frees_nothing k w _⟩
    · simp [videocapture_init, parse_OOI_O_int, PyDict_Check, a.1, VideoInitialize,
        b.1, hst]
    · simp [videocapture_init, parse_OOI_O_int, PyDict_Check, a.1, VideoInitialize,
        b.1, hst]
      exact a.2

/-- Witness of C6 (amended): with an allocator that fails on the second call,
a failing run holds one buffer and has freed none. -/
theorem init_failure_keeps_buffers_witness :
    (videocapture_init k3 wOneBuffer initArgs).2 =
        (-1, some (PyErr.MemoryError "unable to allocate memory")) ∧
      allocated (videocapture_init k3 wOneBuffer initArgs).1.memLog =
        allocated wOneBuffer.memLog + 1 ∧
      freed (videocapture_init k3 wOneBuffer initArgs).1.memLog = freed wOneBuffer.memLog :=
  (init_failure_keeps_buffers k3 wOneBuffer 1136721920).1 1 (by decide)
    (by intro j hj; interval_cases j; decide) (by decide)

/-- Counterexample to C6 as stated: two failing runs with no frame object
supplied.  When the second allocation fails, one allocation has succeeded and
nothing has been freed; when the driver reports status 1, three allocations
have succeeded and nothing has been freed. -/
theorem init_leaks_buffers :
    (videocapture_init k3 wOneBuffer initArgs).2 =
        (-1, some (PyErr.MemoryError "unable to allocate memory")) ∧
      allocated (videocapture_init k3 wOneBuffer initArgs).1.memLog = 1 ∧
      freed (videocapture_init k3 wOneBuffer initArgs).1.memLog = 0 ∧
      (videocapture_init k3 wDriverFails initArgs).2 = (-1, some (PyErr.LookupError 1)) ∧
      allocated (videocapture_init k3 wDriverFails initArgs).1.memLog = 3 ∧
      freed (videocapture_init k3 wDriverFails initArgs).1.memLog = 0 := by
  decide

/-! ## The invariant on `curFrame` -/

/-- Whatever its argument tuple, `frame_index` leaves `curFrame` below
`NUM_FRAMES` when it was so before. -/
theorem frame_index_preserves (k : Consts) (w : World) (args : List PyObj)
    (h : w.capture.curFrame < k.NUM_FRAMES) :
    (videocapture_frame_index k w args).1.capture.curFrame < k.NUM_FRAMES := by
  by_cases hn : args.length > 0
  · cases hparse : PyArg_ParseTuple_I args with
    | none => simpa [videocapture_frame_index, hn, hparse] using h
    | some newIndex =>
      by_cases hr : newIndex < k.NUM_FRAMES
      · simp [videocapture_frame_index, hn, hparse, hr, VideoChangeFrame]
      · simpa [videocapture_frame_index, hn, hparse, hr] using h
  · simpa [videocapture_frame_index, hn] using h

/-- When there is at least one frame, `frame_index_next` leaves `curFrame`
below `NUM_FRAMES`, from any state. -/
theorem frame_index_next_preserves (k : Consts) (w : World) (hN : 0 < k.NUM_FRAMES) :
    (videocapture_frame_index_next k w).1.capture.curFrame < k.NUM_FRAMES := by
  simp only [videocapture_frame_index_next, VideoChangeFrame]
  split
  · exact hN
  · omega

/-- The methods other than `frame_index` and `frame_index_next` do not change
`curFrame`. -/
theorem other_methods_keep_curFrame (k : Consts) (w : World) (m : Method)
    (args : List PyObj) (h1 : m ≠ Method.frame_index)
    (h2 : m ≠ Method.frame_index_next) :
    (call k w m args).1.capture.curFrame = w.capture.curFrame := by
  cases m with
  | frame_index => exact absurd rfl h1
  | frame_index_next => exact absurd rfl h2
  | frame_width => rfl
  | frame_height => rfl
  | start => rfl
  | stop => rfl
  | state => rfl
  | str => rfl
  | frame =>
    simp only [call, videocapture_frame]
    split
    · rfl
    · split
      · cases PyArg_ParseTuple_I args <;> rfl
      · rfl

/-- C5: with at least one frame, `curFrame < NUM_FRAMES` holds after every run
of `videocapture_init` that returns 0; every method of the binding
(`frame_index` with any arguments, `frame_index_next`, `frame_width`,
`frame_height`, `start`, `stop`, `state`, `frame`, `str`) preserves it; and
every method other than `frame_index` and `frame_index_next` leaves `curFrame`
as it was. -/
theorem curFrame_invariant (k : Consts) (hN : 0 < k.NUM_FRAMES) :
    (∀ (w : World) (args : List PyObj), (videocapture_init k w args).2.1 = 0 →
        (videocapture_init k w args).1.capture.curFrame < k.NUM_FRAMES) ∧
      (∀ (w : World) (m : Method) (args : List PyObj),
        w.capture.curFrame < k.NUM_FRAMES →
        (call k w m args).1.capture.curFrame < k.NUM_FRAMES) ∧
      (∀ (w : World) (m : Method) (args : List PyObj),
        m ≠ Method.frame_index → m ≠ Method.frame_index_next →
        (call k w m args).1.capture.curFrame = w.capture.curFrame) := by
  refine ⟨?_, ?_, ?_⟩
  · intro w args h
    rw [init_success_curFrame k w args h]
    exact hN
  · intro w m args h
    by_cases h1 : m = Method.frame_index
    · subst h1
      exact frame_index_preserves k w args h
    · by_cases h2 : m = Method.frame_index_next
      · subst h2
        exact frame_index_next_preserves k w hN
      · rw [other_methods_keep_curFrame k w m args h1 h2]
        exact h
  · intro w m args h1 h2
    exact other_methods_keep_curFrame k w m args h1 h2

/-- Witness of C5: three frames; initialisation of a fresh object succeeds and
leaves a valid index, `frame_index_next` from frame 2 keeps it valid, and
`str` does not move it. -/
theorem curFrame_invariant_witness :
    0 < k3.NUM_FRAMES ∧
      (videocapture_init k3 w2 initArgs).2.1 = 0 ∧
      (videocapture_init k3 w2 initArgs).1.capture.curFrame < k3.NUM_FRAMES ∧
      w2.capture.curFrame < k3.NUM_FRAMES ∧
      (call k3 w2 Method.frame_index_next []).1.capture.curFrame < k3.NUM_FRAMES ∧
      (call k3 w2 Method.str []).1.capture.curFrame = w2.capture.curFrame :=
  ⟨by decide, by decide,
    (curFrame_invariant k3 (by decide)).1 w2 initArgs (by decide),
    by decide,
    (curFrame_invariant k3 (by decide)).2.1 w2 Method.frame_index_next [] (by decide),
    (curFrame_invariant k3 (by decide)).2.2 w2 Method.str [] (by decide) (by decide)⟩

/-! ## Reading a frame and the summary -/

/-- C7, as the code has it: for every argument tuple with more than one
element, or with exactly one element that is neither an integer nor an object
whose `__index__` gives one, `frame` fails with the `SyntaxError`
"invalid argument" and returns the state as it was: no frame lookup is logged
and `curFrame` is unchanged. -/
theorem frame_invalid_argument (w : World) (args : List PyObj)
    (h : 1 < args.length ∨
      ∃ o, args = [o] ∧ (∀ z, o ≠ PyObj.int z) ∧ (∀ z, o ≠ PyObj.other (some z))) :
    videocapture_frame w args =
      (w, PyResult.NULL (PyErr.SyntaxError "invalid argument")) := by
  rcases h with h | ⟨o, rfl, ho, hx⟩
  · have h0 : args.length ≠ 0 := by omega
    have h1 : args.length ≠ 1 := by omega
    simp [videocapture_frame, h0, h1]
  · cases o with
    | int z => exact absurd rfl (ho z)
    | dict => simp [videocapture_frame, PyArg_ParseTuple_I, PyNumber_Index]
    | frame f => simp [videocapture_frame, PyArg_ParseTuple_I, PyNumber_Index]
    | other index =>
      cases index with
      | none => simp [videocapture_frame, PyArg_ParseTuple_I, PyNumber_Index]
      | some z => exact absurd rfl (hx z)

/-- Witness of C7 (amended): `frame(1, 2)`, `frame(d)` with a dictionary `d`,
and `frame(s)` with an object `s` that has no `__index__`. -/
theorem frame_invalid_argument_witness :
    1 < [PyObj.int 1, PyObj.int 2].length ∧
      videocapture_frame w2 [PyObj.int 1, PyObj.int 2] =
        (w2, PyResult.NULL (PyErr.SyntaxError "invalid argument")) ∧
      videocapture_frame w2 [PyObj.dict] =
        (w2, PyResult.NULL (PyErr.SyntaxError "invalid argument")) ∧
      videocapture_frame w2 [PyObj.other none] =
        (w2, PyResult.NULL (PyErr.SyntaxError "invalid argument")) :=
  ⟨by decide, frame_invalid_argument w2 [PyObj.int 1, PyObj.int 2] (Or.inl (by decide)),
    frame_invalid_argument w2 [PyObj.dict]
      (Or.inr ⟨PyObj.dict, rfl, fun _ h => PyObj.noConfusion h,
        fun _ h => PyObj.noConfusion h⟩),
    frame_invalid_argument w2 [PyObj.other none]
      (Or.inr ⟨PyObj.other none, rfl, fun _ h => PyObj.noConfusion h,
        fun _ h => Option.noConfusion (PyObj.other.inj h)⟩)⟩

/-- Counterexample to C7 as stated: an object that is not an integer but whose
`__index__` returns 1 is the only argument; `frame` raises no error, looks up
index 1 and returns the buffer there. -/
theorem frame_accepts_index_object :
    (∀ z, PyObj.other (some 1) ≠ PyObj.int z) ∧
      (videocapture_frame w2 [PyObj.other (some 1)]).2 = PyResult.view (some 8192) ∧
      (videocapture_frame w2 [PyObj.other (some 1)]).2 ≠
        PyResult.NULL (PyErr.SyntaxError "invalid argument") ∧
      (videocapture_frame w2 [PyObj.other (some 1)]).1.lookupLog = [1] ∧
      w2.lookupLog = [] :=
  ⟨fun _ h => PyObj.noConfusion h, by decide⟩

/-- C8, the code at a 1920x1080 source: `str` probes the timing (the probe
stores width 1920 and height 1080, and `frame_height` returns 1080), but the
summary prints 1920 under "Current Height". -/
theorem str_reports_width_as_height :
    (videocapture_str w2).2 =
        PyResult.str
          { State := 1, CurrentIndex := 2, CurrentWidth := 1920, CurrentHeight := 1920 } ∧
      (videocapture_str w2).1.driverLog = [DriverCall.VtcDetect] ∧
      (videocapture_str w2).1.capture.timing.VActiveVideo = 1080 ∧
      (videocapture_frame_height w2).2 = PyResult.uint 1080 := by
  decide

/-- C9, as the code has it: `frame()` looks up the buffer at `curFrame`;
`frame(i)` with an integer `i` looks up the buffer at `i` converted to
`unsigned int` (`i` modulo `2 ^ 32`, which is `i` itself for
`0 ≤ i < 2 ^ 32`); both log exactly that one lookup, return what it returned,
make no driver call and leave `capture` (index, state, timing) as it was.
Consequently, for every `i < NUM_FRAMES`, `frame_index(i)` followed by
`frame()` looks up and returns the buffer at index `i`. -/
theorem frame_lookup (k : Consts) (w : World) (hk : k.NUM_FRAMES ≤ UINT_MOD) :
    (videocapture_frame w [] =
        ({ w with lookupLog := w.lookupLog ++ [w.capture.curFrame] },
          PyResult.view (bufferAt w.frame w.capture.curFrame))) ∧
      (∀ z : Int, videocapture_frame w [PyObj.int z] =
        ({ w with lookupLog := w.lookupLog ++ [toUInt z] },
          PyResult.view (bufferAt w.frame (toUInt z)))) ∧
      (∀ z : Int, 0 ≤ z → z < (UINT_MOD : Int) → (toUInt z : Int) = z) ∧
      (∀ i : Nat, i < k.NUM_FRAMES →
        (videocapture_frame (videocapture_frame_index k w [PyObj.int i]).1 []).2 =
            PyResult.view (bufferAt w.frame i) ∧
          (videocapture_frame (videocapture_frame_index k w [PyObj.int i]).1 []).1.lookupLog =
            w.lookupLog ++ [i]) := by
  refine ⟨?_, ?_, toUInt_of_range, ?_⟩
  · simp [videocapture_frame, get_frame]
  · intro z
    simp [videocapture_frame, get_frame, parse_I_int]
  · intro i hi
    have hu : toUInt (i : Int) = i := toUInt_natCast i (by omega)
    simp [videocapture_frame, get_frame, videocapture_frame_index, parse_I_int,
      VideoChangeFrame, hu, hi]

/-- Witness of C9 (amended): on three frames, `frame_index(1)` then `frame()`
returns the buffer at index 1. -/
theorem frame_lookup_witness :
    k3.NUM_FRAMES ≤ UINT_MOD ∧
      (videocapture_frame (videocapture_frame_index k3 w2 [PyObj.int (1 : Nat)]).1 []).2 =
        PyResult.view (bufferAt w2.frame 1) ∧
      bufferAt w2.frame 1 = some 8192 :=
  ⟨by decide, ((frame_lookup k3 w2 (by decide)).2.2.2 1 (by decide)).1, by decide⟩

/-- Counterexample to C9 as stated: `frame(2 ^ 32)` has one integer argument,
but the lookup it makes is at index 0, not at `2 ^ 32`, and it returns the
buffer at index 0. -/
theorem frame_lookup_wraps :
    (videocapture_frame w2 [PyObj.int 4294967296]).1.lookupLog = [0] ∧
      w2.lookupLog = [] ∧
      (videocapture_frame w2 [PyObj.int 4294967296]).2 = PyResult.view (some 4096) ∧
      bufferAt w2.frame 0 = some 4096 ∧
      bufferAt w2.frame 4294967296 = none := by
  decide

/-- C10: for every unsigned 32-bit index `i`, `frame(i)` raises no error of its
own: it hands `i` unchanged to `get_frame` (the one lookup it logs) and returns
what `get_frame` returned; this holds in particular for `i ≥ NUM_FRAMES`,
where `frame_index(i)` fails with the out-of-range `ValueError` for the same
`i` and changes nothing. -/
theorem frame_forwards_index (k : Consts) (w : World) (i : Nat) (hi : i < UINT_MOD) :
    (videocapture_frame w [PyObj.int i]).1.lookupLog = w.lookupLog ++ [i] ∧
      (videocapture_frame w [PyObj.int i]).2 = PyResult.view (get_frame w w.frame i).2 ∧
      (∀ e, (videocapture_frame w [PyObj.int i]).2 ≠ PyResult.NULL e) ∧
      (k.NUM_FRAMES ≤ i →
        videocapture_frame_index k w [PyObj.int i] =
          (w, PyResult.NULL
            (PyErr.ValueError (asSignedInt i) 0 ((k.NUM_FRAMES : Int) - 1)))) := by
  have hu : toUInt (i : Int) = i := toUInt_natCast i hi
  refine ⟨?_, ?_, ?_, ?_⟩
  · simp [videocapture_frame, get_frame, parse_I_int, hu]
  · simp [videocapture_frame, get_frame, parse_I_int, hu]
  · intro e
    simp [videocapture_frame, get_frame, parse_I_int, hu]
  · intro h
    have hn : ¬ i < k.NUM_FRAMES := Nat.not_lt.mpr h
    simp [videocapture_frame_index, parse_I_int, hu, hn]

/-- Witness of C10: index 7 on three frames. -/
theorem frame_forwards_index_witness :
    7 < UINT_MOD ∧
      (videocapture_frame w2 [PyObj.int (7 : Nat)]).1.lookupLog = w2.lookupLog ++ [7] ∧
      (videocapture_frame w2 [PyObj.int (7 : Nat)]).2 =
        PyResult.view (get_frame w2 w2.frame 7).2 ∧
      videocapture_frame_index k3 w2 [PyObj.int (7 : Nat)] =
        (w2, PyResult.NULL (PyErr.ValueError (asSignedInt 7) 0 ((k3.NUM_FRAMES : Int) - 1))) :=
  ⟨by decide, (frame_forwards_index k3 w2 7 (by decide)).1,
    (frame_forwards_index k3 w2 7 (by decide)).2.1,
    (frame_forwards_index k3 w2 7 (by decide)).2.2.2 (by decide)⟩

end Capture
